import Mathlib

/-!
Shallow embedding of `src/DynamoPaginatedRead/app.js`: a keyset-paginated
read service over a partitioned, ordered store, together with a cursor
cache (node-cache), a background prefetcher, and write-triggered cache
invalidation.

Conventions of the embedding:
* Items are opaque (`α`).  The ordered content of a partition is a
  `List α`, supplied by `db : String → List α` (partition key → items in
  the store's native descending sort order).
* A continuation cursor (`LastEvaluatedKey`) is modelled as the index of
  the first item of the next page; `none` models a JS `undefined` /
  absent key.
* The cache is explicit state, threaded through each operation.
* Each loop of the source is embedded with a fuel argument that mirrors
  the loop bound exactly; every definition also records the list of
  cursors passed to the external query (`trace`) or the number of
  external queries issued, so that fetch-count properties can be stated.
-/

/-- The node-cache instance: an association list from string keys to the
stored `LastEvaluatedKey` value.  A stored value of `none` models
`cache.set(key, undefined)`, which node-cache accepts. -/
abbrev Cache := List (String × Option Nat)

/-- Embeds `cache.get(key)`.  A miss and a stored `undefined` are both observed
as `undefined` by the calling JS code, so both flatten to `none`. -/
def cacheGet (c : Cache) (k : String) : Option Nat :=
  match c.find? (fun kv => kv.1 == k) with
  | some kv => kv.2
  | none => none

/-- Embeds `cache.set(key, v)`: overwrites any entry for `key`. -/
def cacheSet (c : Cache) (k : String) (v : Option Nat) : Cache :=
  (k, v) :: c.filter (fun kv => !(kv.1 == k))

/-- The template literal
`customer_${customerId}_lastEvaluatedKey_${page}_${limit}` used as cache
key throughout the source. -/
def cacheKey (customerId : String) (page limit : Nat) : String :=
  "customer_" ++ customerId ++ "_lastEvaluatedKey_" ++ toString page ++ "_" ++ toString limit

/-- JS `String.prototype.startsWith`, as a character-list computation. -/
def strStartsWith (s pat : String) : Bool :=
  pat.data.isPrefixOf s.data

/-- Embeds `invalidateCustomerCache(customerId)`: deletes every cache key that
starts with `customer_${customerId}_lastEvaluatedKey_` (the source takes
`cache.keys()`, filters by `startsWith`, and `cache.del`s the result;
the surviving entries are exactly those whose key does not match). -/
def invalidateCustomerCache (c : Cache) (customerId : String) : Cache :=
  c.filter (fun kv => !(strStartsWith kv.1 ("customer_" ++ customerId ++ "_lastEvaluatedKey_")))

/-- The shape of a DynamoDB query result as used by the source:
`result.Items` and `result.LastEvaluatedKey`. -/
structure QueryResult (α : Type) where
  Items : List α
  LastEvaluatedKey : Option Nat
deriving Repr, DecidableEq

/-- Modelled from the spec: the external ordered store behind
`queryCustomerOrders` (a DynamoDB `Query` against one partition, not part
of `src/`).  Per the PageFetcher contract (spec sections 4.1 and 6): an
absent cursor means start of partition; the call returns the next
`limit` items in the store's order and a next-continuation cursor that
is absent exactly when the partition is exhausted. -/
def storeQuery {α : Type} (os : List α) (limit : Nat) (exclusiveStartKey : Option Nat) :
    QueryResult α :=
  let start := exclusiveStartKey.getD 0
  { Items := (os.drop start).take limit
    LastEvaluatedKey := if start + limit < os.length then some (start + limit) else none }

/-- Embeds `queryCustomerOrders(customerId, limit, exclusiveStartKey)`: queries
the partition of `customerId` with the given page size and cursor. -/
def queryCustomerOrders {α : Type} (db : String → List α) (customerId : String) (limit : Nat)
    (exclusiveStartKey : Option Nat) : QueryResult α :=
  storeQuery (db customerId) limit exclusiveStartKey

/-- Embeds `const PREFETCH_PAGES = 3`. -/
def PREFETCH_PAGES : Nat := 3

/-- Result of `getCustomerPageItems`: the returned items and
`lastEvaluatedKey`, the cache state after the call, and the trace of
cursors passed to `queryCustomerOrders` (instrumentation only; it records
one entry per external query issued, in order). -/
structure PageLoopResult (α : Type) where
  items : List α
  lastEvaluatedKey : Option Nat
  cache : Cache
  trace : List (Option Nat)
deriving Repr

/-- The `while (currentPage <= page)` loop of `getCustomerPageItems`.
`fuel` is `page - currentPage + 1`, the number of remaining iterations
permitted by the loop guard; the body fetches with the carried cursor,
caches the produced `LastEvaluatedKey` under the key of `currentPage`,
and breaks when the key is absent or `currentPage === page`. -/
def getPageLoop {α : Type} (db : String → List α) (customerId : String) (page limit : Nat) :
    Nat → Nat → Option Nat → Cache → List α → PageLoopResult α
  | 0, _, lek, c, items => { items := items, lastEvaluatedKey := lek, cache := c, trace := [] }
  | fuel + 1, currentPage, lek, c, _items =>
    let result := queryCustomerOrders db customerId limit lek
    let c2 := cacheSet c (cacheKey customerId currentPage limit) result.LastEvaluatedKey
    if result.LastEvaluatedKey.isNone || currentPage == page then
      { items := result.Items, lastEvaluatedKey := result.LastEvaluatedKey, cache := c2,
        trace := [lek] }
    else
      let r := getPageLoop db customerId page limit fuel (currentPage + 1)
        result.LastEvaluatedKey c2 result.Items
      { r with trace := lek :: r.trace }

/-- Embeds `getCustomerPageItems(customerId, page, limit)`: for `page > 1` the
cursor of page `page - 1` is looked up in the cache (a miss yields
`undefined`, i.e. `none`), then the while-loop runs from
`currentPage = 1`. -/
def getCustomerPageItems {α : Type} (db : String → List α) (customerId : String)
    (page limit : Nat) (c : Cache) : PageLoopResult α :=
  let lek0 := if page > 1 then cacheGet c (cacheKey customerId (page - 1) limit) else none
  getPageLoop db customerId page limit page 1 lek0 c []

/-- The `for (let i = 1; i <= PREFETCH_PAGES; i++)` loop of
`prefetchNextPages`, over an abstract fetcher `pf` (so that a failing
external query — `pf` returning `none` — can be expressed).  Returns the
cache after the loop and the number of external queries issued. -/
def prefetchLoop {α : Type} (pf : Option Nat → Option (QueryResult α)) (customerId : String)
    (currentPage limit : Nat) : Nat → Nat → Option Nat → Cache → Cache × Nat
  | 0, _, _, c => (c, 0)
  | fuel + 1, i, lek, c =>
    if lek.isNone then (c, 0)
    else
      match pf lek with
      | none => (c, 1)
      | some result =>
        let c2 := cacheSet c (cacheKey customerId (currentPage + i) limit) result.LastEvaluatedKey
        let r := prefetchLoop pf customerId currentPage limit fuel (i + 1)
          result.LastEvaluatedKey c2
        (r.1, r.2 + 1)

/-- Embeds `prefetchNextPages(customerId, currentPage, limit, startKey)` over an
abstract fetcher. -/
def prefetchNextPagesF {α : Type} (pf : Option Nat → Option (QueryResult α))
    (customerId : String) (currentPage limit : Nat) (startKey : Option Nat) (c : Cache) :
    Cache × Nat :=
  prefetchLoop pf customerId currentPage limit PREFETCH_PAGES 1 startKey c

/-- The non-failing fetcher: every external query succeeds and behaves
as `queryCustomerOrders`. -/
def pureFetch {α : Type} (db : String → List α) (customerId : String) (limit : Nat) :
    Option Nat → Option (QueryResult α) :=
  fun lek => some (queryCustomerOrders db customerId limit lek)

/-- Embeds `prefetchNextPages` with the non-failing fetcher. -/
def prefetchNextPages {α : Type} (db : String → List α) (customerId : String)
    (currentPage limit : Nat) (startKey : Option Nat) (c : Cache) : Cache :=
  (prefetchNextPagesF (pureFetch db customerId limit) customerId currentPage limit startKey c).1

/-- The JSON body produced by `GET /orders/:customerId`. -/
structure OrdersResponse (α : Type) where
  orders : List α
  customerId : String
  currentPage : Nat
  itemsPerPage : Nat
  hasNextPage : Bool
  totalItems : Nat
deriving Repr

/-- The `GET /orders/:customerId` handler over an abstract prefetch
fetcher: serve the page via `getCustomerPageItems`, then — only if
`lastEvaluatedKey` is truthy — run `prefetchNextPages` (fire-and-forget
in JS; here its only effect is the final cache state, and the response
is built solely from the `getCustomerPageItems` result). -/
def handleGetOrdersF {α : Type} (db : String → List α)
    (pf : Option Nat → Option (QueryResult α)) (customerId : String) (page limit : Nat)
    (c : Cache) : OrdersResponse α × Cache :=
  let r := getCustomerPageItems db customerId page limit c
  let c2 :=
    if r.lastEvaluatedKey.isSome then
      (prefetchNextPagesF pf customerId page limit r.lastEvaluatedKey r.cache).1
    else r.cache
  ({ orders := r.items, customerId := customerId, currentPage := page, itemsPerPage := limit,
     hasNextPage := r.lastEvaluatedKey.isSome, totalItems := r.items.length }, c2)

/-- The `GET /orders/:customerId` handler with the non-failing fetcher. -/
def handleGetOrders {α : Type} (db : String → List α) (customerId : String) (page limit : Nat)
    (c : Cache) : OrdersResponse α × Cache :=
  handleGetOrdersF db (pureFetch db customerId limit) customerId page limit c

/-- The cache-free reference, following the spec's words: replay
PageFetcher sequentially from page 1, carrying the cursor forward, with
no cache involved at all; return the requested page's items and its
next cursor. -/
def replayLoop {α : Type} (os : List α) (limit page : Nat) :
    Nat → Nat → Option Nat → List α → List α × Option Nat
  | 0, _, cur, acc => (acc, cur)
  | fuel + 1, p, cur, _acc =>
    let result := storeQuery os limit cur
    if result.LastEvaluatedKey.isNone || p == page then (result.Items, result.LastEvaluatedKey)
    else replayLoop os limit page fuel (p + 1) result.LastEvaluatedKey result.Items

/-- Cache-free fetch of page `page`, replaying from page 1. -/
def replayGetPage {α : Type} (os : List α) (limit page : Nat) : List α × Option Nat :=
  replayLoop os limit page page 1 none []

/-- Number of pages a partition of `len` items holds at page size `s`
(at least one: an empty partition still answers one empty page). -/
def numPages (len s : Nat) : Nat := max 1 ((len + s - 1) / s)

/-- The canonical cursor with which page `cp` is fetched on a cold
chain walk: absent for page 1, otherwise the position after the first
`cp - 1` pages. -/
def cursorAt (s cp : Nat) : Option Nat :=
  if cp = 1 then none else some ((cp - 1) * s)

/-- A JSON value as relevant to the write endpoint's validation: the JS
truthiness test `!x` distinguishes exactly these cases. -/
inductive JsValue where
  | str : String → JsValue
  | num : Int → JsValue
  | boolean : Bool → JsValue
  | nullV : JsValue
deriving Repr, DecidableEq

/-- JS truthiness of a value (`""`, `0`, `false`, `null` are falsy). -/
def truthy : JsValue → Bool
  | .str s => !(s == "")
  | .num n => !(n == 0)
  | .boolean b => b
  | .nullV => false

/-- Truthiness of a destructured field: an absent field destructures to
`undefined`, which is falsy. -/
def fieldTruthy : Option JsValue → Bool
  | none => false
  | some v => truthy v

/-- The body of `POST /orders`; each required field may be absent. -/
structure OrderBody where
  CustomerID : Option JsValue
  OrderNumber : Option JsValue
  OrderValue : Option JsValue
  OrderDate : Option JsValue
deriving Repr, DecidableEq

/-- Stringification used by the template literal in
`invalidateCustomerCache(CustomerID)`. -/
def jsToString : JsValue → String
  | .str s => s
  | .num n => toString n
  | .boolean b => if b then "true" else "false"
  | .nullV => "null"

/-- Outcome of `POST /orders`: the HTTP status sent, the order echoed in
a 201 response, whether the record was persisted by the store put, and
the resulting cache state. -/
structure PostResult where
  status : Nat
  returnedOrder : Option (JsValue × JsValue × JsValue × JsValue)
  persisted : Bool
  cache : Cache
deriving Repr, DecidableEq

/-- The `POST /orders` handler.  `putOk` models whether the store put
succeeds, `invOk` whether `invalidateCustomerCache` runs without
throwing (node-cache calls are inside the same `try` as the put, so a
throwing invalidation is caught by the same `catch` and answered with
status 500, although the record was already persisted). -/
def handlePostOrders (body : OrderBody) (putOk invOk : Bool) (c : Cache) : PostResult :=
  if !fieldTruthy body.CustomerID || !fieldTruthy body.OrderNumber
      || !fieldTruthy body.OrderValue || !fieldTruthy body.OrderDate then
    { status := 400, returnedOrder := none, persisted := false, cache := c }
  else if !putOk then
    { status := 500, returnedOrder := none, persisted := false, cache := c }
  else if !invOk then
    { status := 500, returnedOrder := none, persisted := true, cache := c }
  else
    { status := 201
      returnedOrder := some (body.CustomerID.getD .nullV, body.OrderNumber.getD .nullV,
        body.OrderValue.getD .nullV, body.OrderDate.getD .nullV)
      persisted := true
      cache := invalidateCustomerCache c (jsToString (body.CustomerID.getD .nullV)) }

/-- A store whose every partition holds 25 distinct items, the scenario
of spec section 8 (partition "C1", 25 items, pageSize 10). -/
def db25 : String → List Nat := fun _ => List.range 25

/-- First request of the three-page scenario: page 1 of "C1" on an empty
cache (response and cache, the latter including the prefetch's writes). -/
def scenarioReq1 : OrdersResponse Nat × Cache := handleGetOrders db25 "C1" 1 10 []

/-- Second request of the scenario: page 2, on the cache left by the
first request and its prefetch. -/
def scenarioReq2 : OrdersResponse Nat × Cache := handleGetOrders db25 "C1" 2 10 scenarioReq1.2

/-- Third request of the scenario: page 3, on the cache left by the
second request. -/
def scenarioReq3 : OrdersResponse Nat × Cache := handleGetOrders db25 "C1" 3 10 scenarioReq2.2

/-- A write body whose four required fields are all present, with the
numeric value 0 (which is falsy in JS). -/
def orderBodyZeroValue : OrderBody :=
  { CustomerID := some (.str "C1"), OrderNumber := some (.str "ORD-1"),
    OrderValue := some (.num 0), OrderDate := some (.str "2024-01-01") }

/-- A write body whose four required fields are present and truthy. -/
def orderBodyValid : OrderBody :=
  { CustomerID := some (.str "C1"), OrderNumber := some (.str "ORD-1"),
    OrderValue := some (.num 5), OrderDate := some (.str "2024-01-01") }

/-- Claim C1 — chain correctness — fails on the code: with the cache
state produced by the system itself (a page-1 request plus its
prefetch), requesting page 2 returns the items of page 3 (items 21–25 of
the 25-item partition), while the cache-free replay of page 2 returns
items 11–20.  The loop of `getCustomerPageItems` runs `page` times from
`currentPage = 1` even when it starts from the cached cursor of page
`page - 1`, so a cache hit walks past the requested page. -/
theorem C1_warm_read_wrong_items :
    (getCustomerPageItems db25 "C1" 2 10 (handleGetOrders db25 "C1" 1 10 []).2).items
      = [20, 21, 22, 23, 24]
    ∧ (replayGetPage (List.range 25) 10 2).1 = [10, 11, 12, 13, 14, 15, 16, 17, 18, 19] := by
  decide

/-- Claim C2 — cache-entry invariant — fails on the code: after the same
warm page-2 request, the cache entry for (C1, page 1, size 10) holds
`some 20`, the cursor produced by fetching page 2, whereas the cursor
actually produced by fetching page 1 is `some 10`.  The loop caches
under the key of `currentPage`, which is out of step with the fetched
page whenever the loop starts from a cached cursor. -/
theorem C2_cache_entry_corrupted :
    cacheGet (getCustomerPageItems db25 "C1" 2 10 (handleGetOrders db25 "C1" 1 10 []).2).cache
        (cacheKey "C1" 1 10) = some 20
    ∧ (queryCustomerOrders db25 "C1" 10 none).LastEvaluatedKey = some 10 := by
  decide

/-- Claim C4 — three-page scenario — fails on the code at the second
request: page 1 returns items 1–10 with hasNextPage = true as claimed,
but page 2 (finding the page-1 cursor cached by the first request's
loop) returns items 21–25 with hasNextPage = false instead of items
11–20 with hasNextPage = true; page 3 then misses (the second request
overwrote the page-2 entry with an absent cursor), replays from page 1,
and returns items 21–25 with hasNextPage = false as claimed. -/
theorem C4_three_page_scenario :
    scenarioReq1.1.orders = [0, 1, 2, 3, 4, 5, 6, 7, 8, 9]
    ∧ scenarioReq1.1.hasNextPage = true
    ∧ scenarioReq2.1.orders = [20, 21, 22, 23, 24]
    ∧ scenarioReq2.1.hasNextPage = false
    ∧ scenarioReq3.1.orders = [20, 21, 22, 23, 24]
    ∧ scenarioReq3.1.hasNextPage = false := by
  decide

/-- Claim C7's frame part is false as stated: `invalidateCustomerCache`
matches keys by string prefix, so invalidating partition "A" also
deletes the page-1 entry of the distinct partition
"A_lastEvaluatedKey_1" (whose cache key starts with
`customer_A_lastEvaluatedKey_`). -/
theorem C7_invalidation_frame_counterexample :
    ("A_lastEvaluatedKey_1" : String) ≠ "A"
    ∧ invalidateCustomerCache [(cacheKey "A_lastEvaluatedKey_1" 1 10, some 5)] "A" = [] := by
  decide

/-- Claim C8's "iff" is false as stated: a body whose four required
fields are all present, but whose numeric value is 0, is rejected with
status 400 because the JS validation tests truthiness (`!OrderValue`),
not presence. -/
theorem C8_write_validation_counterexample :
    orderBodyZeroValue.CustomerID.isSome = true
    ∧ orderBodyZeroValue.OrderNumber.isSome = true
    ∧ orderBodyZeroValue.OrderValue.isSome = true
    ∧ orderBodyZeroValue.OrderDate.isSome = true
    ∧ (handlePostOrders orderBodyZeroValue true true []).status = 400 := by
  decide

/-- Claim C9 is false as stated: when the store put succeeds and the
subsequent cache invalidation throws, the record is persisted but the
caller receives status 500 — the invalidation runs inside the same
`try` as the put, so its failure is caught by the same `catch` and
reported as a server error, not acknowledged as a successful write. -/
theorem C9_invalidation_failure_counterexample :
    (handlePostOrders orderBodyValid true false []).persisted = true
    ∧ (handlePostOrders orderBodyValid true false []).status = 500 := by
  decide

/-- The prefetch loop issues at most `fuel` external queries. -/
theorem prefetchLoop_count_le {α : Type} (pf : Option Nat → Option (QueryResult α))
    (customerId : String) (currentPage limit : Nat) :
    ∀ (fuel i : Nat) (lek : Option Nat) (c : Cache),
      (prefetchLoop pf customerId currentPage limit fuel i lek c).2 ≤ fuel := by
  intro fuel
  induction fuel with
  | zero => intro i lek c; simp [prefetchLoop]
  | succ n ih =>
    intro i lek c
    cases lek with
    | none => simp [prefetchLoop]
    | some k =>
      cases hpf : pf (some k) with
      | none => simp [prefetchLoop, hpf]
      | some result =>
        simp only [prefetchLoop, Option.isNone_some, Bool.false_eq_true, if_false, hpf]
        have := ih (i + 1) result.LastEvaluatedKey
          (cacheSet c (cacheKey customerId (currentPage + i) limit) result.LastEvaluatedKey)
        omega

/-- With an absent carried cursor the prefetch loop issues no query. -/
theorem prefetchLoop_none {α : Type} (pf : Option Nat → Option (QueryResult α))
    (customerId : String) (currentPage limit : Nat) (fuel i : Nat) (c : Cache) :
    prefetchLoop pf customerId currentPage limit fuel i none c = (c, 0) := by
  cases fuel <;> simp [prefetchLoop]

/-- Claim C5 — prefetch bound: every `prefetchNextPages` invocation
issues at most `PREFETCH_PAGES = 3` external queries; if the query at
the current step fails, no further query is issued (that step is the
last, counted once); and if the query at the current step returns an
absent next-cursor, no further query is issued either. -/
theorem C5_prefetch_bound {α : Type} (pf : Option Nat → Option (QueryResult α))
    (customerId : String) (currentPage limit : Nat) (startKey : Option Nat) (c : Cache) :
    (prefetchNextPagesF pf customerId currentPage limit startKey c).2 ≤ PREFETCH_PAGES
    ∧ (∀ (fuel i k : Nat) (c2 : Cache), pf (some k) = none →
        prefetchLoop pf customerId currentPage limit (fuel + 1) i (some k) c2 = (c2, 1))
    ∧ (∀ (fuel i k : Nat) (c2 : Cache) (r : QueryResult α), pf (some k) = some r →
        r.LastEvaluatedKey = none →
        (prefetchLoop pf customerId currentPage limit (fuel + 1) i (some k) c2).2 = 1) := by
  refine ⟨prefetchLoop_count_le pf customerId currentPage limit PREFETCH_PAGES 1 startKey c,
    ?_, ?_⟩
  · intro fuel i k c2 h
    simp [prefetchLoop, h]
  · intro fuel i k c2 r h hr
    simp [prefetchLoop, h, hr, prefetchLoop_none]

/-- Witness for C5 at concrete inputs: the pure fetcher on the 25-item
partition starting after page 1; an always-failing fetcher; and a
fetcher whose result carries an absent next-cursor. -/
theorem C5_prefetch_bound_witness :
    (prefetchNextPagesF (pureFetch db25 "C1" 10) "C1" 1 10 (some 10) []).2 ≤ PREFETCH_PAGES
    ∧ prefetchLoop (fun _ => (none : Option (QueryResult Nat))) "C1" 1 10 3 1 (some 0) []
        = ([], 1)
    ∧ (prefetchLoop
        (fun _ => some ({ Items := [1, 2], LastEvaluatedKey := none } : QueryResult Nat))
        "C1" 1 10 3 1 (some 0) []).2 = 1 :=
  ⟨(C5_prefetch_bound (pureFetch db25 "C1" 10) "C1" 1 10 (some 10) []).1,
   (C5_prefetch_bound (fun _ => none) "C1" 1 10 (some 0) []).2.1 2 1 0 [] rfl,
   (C5_prefetch_bound (fun _ => some ⟨[1, 2], none⟩) "C1" 1 10 (some 0) []).2.2 2 1 0 []
     ⟨[1, 2], none⟩ rfl rfl⟩

/-- Claim C6 — prefetch failure handling: the response of the page
request is independent of the prefetch fetcher (so a prefetch failure is
never observed by the caller, who is answered from the
`getCustomerPageItems` result alone), and when the query at the current
prefetch step fails, the cache is returned exactly as the completed
earlier steps left it — nothing is rolled back. -/
theorem C6_prefetch_failure_swallowed {α : Type} (db : String → List α)
    (pf pf2 : Option Nat → Option (QueryResult α)) (customerId : String) (page limit : Nat)
    (c : Cache) :
    (handleGetOrdersF db pf customerId page limit c).1
      = (handleGetOrdersF db pf2 customerId page limit c).1
    ∧ (∀ (fuel i k : Nat) (c2 : Cache), pf (some k) = none →
        (prefetchLoop pf customerId page limit (fuel + 1) i (some k) c2).1 = c2) := by
  constructor
  · rfl
  · intro fuel i k c2 h
    simp [prefetchLoop, h]

/-- Witness for C6: the page-1 response over the 25-item partition is
the same whether the prefetch fetcher succeeds or always fails, and a
failing step returns the accumulated cache unchanged. -/
theorem C6_prefetch_failure_swallowed_witness :
    (handleGetOrdersF db25 (pureFetch db25 "C1" 10) "C1" 1 10 []).1
      = (handleGetOrdersF db25 (fun _ => none) "C1" 1 10 []).1
    ∧ (prefetchLoop (fun _ => (none : Option (QueryResult Nat))) "C1" 1 10 3 1 (some 10)
        [(cacheKey "C1" 1 10, some 10)]).1 = [(cacheKey "C1" 1 10, some 10)] :=
  ⟨(C6_prefetch_failure_swallowed db25 (pureFetch db25 "C1" 10) (fun _ => none) "C1" 1 10 []).1,
   (C6_prefetch_failure_swallowed db25 (fun _ => none) (fun _ => none) "C1" 1 10 []).2
     2 1 10 [(cacheKey "C1" 1 10, some 10)] rfl⟩

/-- A character list is a prefix of itself followed by anything. -/
theorem charList_isPrefixOf_append (l t : List Char) : l.isPrefixOf (l ++ t) = true := by
  induction l with
  | nil => simp [List.isPrefixOf]
  | cons a as ih => simp [List.isPrefixOf, ih]

/-- Relation `strStartsWith` holds between a concatenation and its left part. -/
theorem strStartsWith_append (p rest : String) : strStartsWith (p ++ rest) p = true := by
  simp [strStartsWith, String.data_append, charList_isPrefixOf_append]

/-- Every cache key of a customer starts with that customer's
invalidation pattern. -/
theorem cacheKey_startsWith (customerId : String) (page limit : Nat) :
    strStartsWith (cacheKey customerId page limit)
      ("customer_" ++ customerId ++ "_lastEvaluatedKey_") = true := by
  have h : cacheKey customerId page limit
      = ("customer_" ++ customerId ++ "_lastEvaluatedKey_")
        ++ (toString page ++ "_" ++ toString limit) := by
    apply String.ext
    simp [cacheKey, String.data_append, List.append_assoc]
  rw [h]
  exact strStartsWith_append _ _

/-- Claim C7 amended: `invalidateCustomerCache k` removes every cache
entry whose key is `cacheKey k n s` (for every page number, page size
and stored value), and leaves unchanged every entry whose key does not
start with `customer_k_lastEvaluatedKey_`.  The original frame claim —
entries of every other partition key survive — is false, because an
entry of a partition key of the form `k ++ "_lastEvaluatedKey_..."`
also starts with that pattern and is deleted
(`C7_invalidation_frame_counterexample`). -/
theorem C7_invalidation_amended (c : Cache) (customerId : String) (page limit : Nat) :
    (∀ v : Option Nat, (cacheKey customerId page limit, v) ∉ invalidateCustomerCache c customerId)
    ∧ (∀ kv : String × Option Nat, kv ∈ c →
        strStartsWith kv.1 ("customer_" ++ customerId ++ "_lastEvaluatedKey_") = false →
        kv ∈ invalidateCustomerCache c customerId) := by
  constructor
  · intro v hv
    rw [invalidateCustomerCache, List.mem_filter] at hv
    have h2 := hv.2
    rw [cacheKey_startsWith] at h2
    simp at h2
  · intro kv hkv hpre
    rw [invalidateCustomerCache, List.mem_filter]
    exact ⟨hkv, by simp [hpre]⟩

/-- Witness for C7 amended, on a two-entry cache: the entry of partition
"A" is removed, the entry of partition "B" survives. -/
theorem C7_invalidation_amended_witness :
    (cacheKey "A" 2 10, some 9) ∉
      invalidateCustomerCache [(cacheKey "A" 2 10, some 9), (cacheKey "B" 1 10, some 3)] "A"
    ∧ (cacheKey "B" 1 10, some 3) ∈
      invalidateCustomerCache [(cacheKey "A" 2 10, some 9), (cacheKey "B" 1 10, some 3)] "A" :=
  ⟨(C7_invalidation_amended [(cacheKey "A" 2 10, some 9), (cacheKey "B" 1 10, some 3)]
      "A" 2 10).1 (some 9),
   (C7_invalidation_amended [(cacheKey "A" 2 10, some 9), (cacheKey "B" 1 10, some 3)]
      "A" 2 10).2 (cacheKey "B" 1 10, some 3) (by decide) (by decide)⟩

/-- Claim C8 amended: with no store or cache failure, the write endpoint
answers 400 if and only if at least one required field is absent *or
present with a JS-falsy value* (empty string, 0, false, null) — absence
alone is not what is tested; and when all four fields are truthy it
persists the record, invalidates the customer's cache entries, and
answers 201 with the persisted record. -/
theorem C8_write_validation_amended (b : OrderBody) (c : Cache) :
    ((handlePostOrders b true true c).status = 400 ↔
      ¬(fieldTruthy b.CustomerID = true ∧ fieldTruthy b.OrderNumber = true
        ∧ fieldTruthy b.OrderValue = true ∧ fieldTruthy b.OrderDate = true))
    ∧ (fieldTruthy b.CustomerID = true → fieldTruthy b.OrderNumber = true →
        fieldTruthy b.OrderValue = true → fieldTruthy b.OrderDate = true →
        (handlePostOrders b true true c).status = 201
        ∧ (handlePostOrders b true true c).persisted = true
        ∧ (handlePostOrders b true true c).returnedOrder
            = some (b.CustomerID.getD .nullV, b.OrderNumber.getD .nullV,
                b.OrderValue.getD .nullV, b.OrderDate.getD .nullV)
        ∧ (handlePostOrders b true true c).cache
            = invalidateCustomerCache c (jsToString (b.CustomerID.getD .nullV))) := by
  cases h1 : fieldTruthy b.CustomerID <;> cases h2 : fieldTruthy b.OrderNumber <;>
    cases h3 : fieldTruthy b.OrderValue <;> cases h4 : fieldTruthy b.OrderDate <;>
    simp [handlePostOrders, h1, h2, h3, h4]

/-- Witness for C8 amended at a truthy body and a one-entry cache. -/
theorem C8_write_validation_amended_witness :
    (handlePostOrders orderBodyValid true true [(cacheKey "C1" 1 10, some 10)]).status = 201
    ∧ (handlePostOrders orderBodyValid true true [(cacheKey "C1" 1 10, some 10)]).persisted
        = true
    ∧ (handlePostOrders orderBodyValid true true [(cacheKey "C1" 1 10, some 10)]).returnedOrder
        = some (orderBodyValid.CustomerID.getD .nullV, orderBodyValid.OrderNumber.getD .nullV,
            orderBodyValid.OrderValue.getD .nullV, orderBodyValid.OrderDate.getD .nullV)
    ∧ (handlePostOrders orderBodyValid true true [(cacheKey "C1" 1 10, some 10)]).cache
        = invalidateCustomerCache [(cacheKey "C1" 1 10, some 10)]
            (jsToString (orderBodyValid.CustomerID.getD .nullV)) :=
  (C8_write_validation_amended orderBodyValid [(cacheKey "C1" 1 10, some 10)]).2
    (by decide) (by decide) (by decide) (by decide)

/-- Claim C9 amended: for a body passing validation, the write is
acknowledged with 201 exactly when both the store put and the cache
invalidation succeed; if the put succeeds and the invalidation throws,
the record is persisted but the caller is answered with status 500 (the
invalidation failure is caught by the handler's single `catch` and is
fatal to the acknowledgement, though not to the stored record). -/
theorem C9_invalidation_failure_amended (b : OrderBody) (c : Cache) (putOk invOk : Bool) :
    fieldTruthy b.CustomerID = true → fieldTruthy b.OrderNumber = true →
    fieldTruthy b.OrderValue = true → fieldTruthy b.OrderDate = true →
    (((handlePostOrders b putOk invOk c).status = 201) ↔ (putOk = true ∧ invOk = true))
    ∧ (putOk = true → invOk = false →
        (handlePostOrders b putOk invOk c).persisted = true
        ∧ (handlePostOrders b putOk invOk c).status = 500) := by
  intro h1 h2 h3 h4
  cases putOk <;> cases invOk <;> simp [handlePostOrders, h1, h2, h3, h4]

/-- Witness for C9 amended: successful put, throwing invalidation. -/
theorem C9_invalidation_failure_amended_witness :
    (((handlePostOrders orderBodyValid true false []).status = 201) ↔
      ((true : Bool) = true ∧ (false : Bool) = true))
    ∧ ((true : Bool) = true → (false : Bool) = false →
        (handlePostOrders orderBodyValid true false []).persisted = true
        ∧ (handlePostOrders orderBodyValid true false []).status = 500) :=
  C9_invalidation_failure_amended orderBodyValid [] true false
    (by decide) (by decide) (by decide) (by decide)

/-- A list without duplicates contains each element at most once. -/
theorem count_le_one_of_nodup {α : Type} [BEq α] [LawfulBEq α] :
    ∀ {l : List α}, l.Nodup → ∀ a, List.count a l ≤ 1 := by
  intro l
  induction l with
  | nil => intro _ a; simp
  | cons x xs ih =>
    intro h a
    rcases List.nodup_cons.mp h with ⟨hx, hxs⟩
    rw [List.count_cons]
    by_cases hax : (x == a) = true
    · have hz : List.count a xs = 0 := by
        rw [List.count_eq_zero]
        intro hmem
        exact hx (by rwa [eq_of_beq hax])
      simp [hz, hax]
    · have hle := ih hxs a
      have haxb : (x == a) = false := by simpa using hax
      simp [haxb]
      omega

/-- When the page loop starts from a present cursor `some v`, every
cursor it passes to the external query is present (never the
start-of-partition cursor) and at least `v`; moreover the trace has no
duplicates, because the carried position strictly increases by `limit`
at every continued step. -/
theorem getPageLoop_trace_of_some {α : Type} (db : String → List α) (customerId : String)
    (page limit : Nat) (hlimit : 1 ≤ limit) :
    ∀ (fuel currentPage v : Nat) (c : Cache) (acc : List α),
      (∀ x ∈ (getPageLoop db customerId page limit fuel currentPage (some v) c acc).trace,
        ∃ w, v ≤ w ∧ x = some w)
      ∧ (getPageLoop db customerId page limit fuel currentPage (some v) c acc).trace.Nodup := by
  intro fuel
  induction fuel with
  | zero =>
    intro cp v c acc
    constructor
    · intro x hx
      simp [getPageLoop] at hx
    · simp [getPageLoop]
  | succ n ih =>
    intro cp v c acc
    by_cases hlt : v + limit < (db customerId).length
    · have hq : queryCustomerOrders db customerId limit (some v)
          = { Items := ((db customerId).drop v).take limit,
              LastEvaluatedKey := some (v + limit) } := by
        simp [queryCustomerOrders, storeQuery, hlt]
      by_cases hcp : cp = page
      · constructor
        · intro x hx
          simp [getPageLoop, hq, hcp] at hx
          exact ⟨v, le_refl v, hx⟩
        · simp [getPageLoop, hq, hcp]
      · have hnodup := (ih (cp + 1) (v + limit)
          (cacheSet c (cacheKey customerId cp limit) (some (v + limit)))
          (((db customerId).drop v).take limit)).2
        have helem := (ih (cp + 1) (v + limit)
          (cacheSet c (cacheKey customerId cp limit) (some (v + limit)))
          (((db customerId).drop v).take limit)).1
        constructor
        · intro x hx
          simp [getPageLoop, hq, hcp] at hx
          rcases hx with hx | hx
          · exact ⟨v, le_refl v, hx⟩
          · obtain ⟨w, hw1, hw2⟩ := helem x hx
            exact ⟨w, by omega, hw2⟩
        · simp only [getPageLoop, hq]
          have hcpb : (cp == page) = false := by
            simpa using hcp
          simp only [hcpb, Option.isNone_some, Bool.false_or, Bool.false_eq_true, if_false]
          refine List.nodup_cons.mpr ⟨?_, hnodup⟩
          intro hmem
          obtain ⟨w, hw1, hw2⟩ := helem (some v) hmem
          have hvw : v = w := by
            have := hw2
            simp at this
            exact this
          omega
    · have hq : queryCustomerOrders db customerId limit (some v)
          = { Items := ((db customerId).drop v).take limit,
              LastEvaluatedKey := none } := by
        simp [queryCustomerOrders, storeQuery, hlt]
      constructor
      · intro x hx
        simp [getPageLoop, hq] at hx
        exact ⟨v, le_refl v, hx⟩
      · simp [getPageLoop, hq]

/-- Claim C3 — idempotent cache population / warm read: call
`getPage(k, n, s)` twice in a row (modelled as `handleGetOrders`
followed by `getCustomerPageItems` on the resulting cache, with no
intervening writes); provided the first call has left a present cursor
cached for page `n - 1`, the second call issues at most one external
fetch for page n (at most one query with page n's start cursor
`some ((n - 1) * s)`) and never replays the chain from page 1 (it issues
no query with the absent start-of-partition cursor). -/
theorem C3_warm_read_single_fetch {α : Type} (db : String → List α) (customerId : String)
    (n s : Nat) (c0 : Cache) (v : Nat) (hn : 2 ≤ n) (hs : 1 ≤ s)
    (hwarm : cacheGet (handleGetOrders db customerId n s c0).2 (cacheKey customerId (n - 1) s)
      = some v) :
    List.count (some ((n - 1) * s))
        (getCustomerPageItems db customerId n s (handleGetOrders db customerId n s c0).2).trace
      ≤ 1
    ∧ (none : Option Nat) ∉
        (getCustomerPageItems db customerId n s (handleGetOrders db customerId n s c0).2).trace
    := by
  have hpage : n > 1 := hn
  have hunfold : getCustomerPageItems db customerId n s (handleGetOrders db customerId n s c0).2
      = getPageLoop db customerId n s n 1 (some v)
          (handleGetOrders db customerId n s c0).2 [] := by
    rw [getCustomerPageItems, if_pos hpage, hwarm]
  rw [hunfold]
  have h := getPageLoop_trace_of_some db customerId n s hs n 1 v
    (handleGetOrders db customerId n s c0).2 []
  constructor
  · exact count_le_one_of_nodup h.2 _
  · intro hmem
    obtain ⟨w, _, hw⟩ := h.1 none hmem
    exact Option.noConfusion hw

/-- Witness for C3: the 25-item partition, page 2 at size 10 requested
twice from an empty cache; the first request caches `some 10` for
page 1, and the warmed second request queries page 2's start cursor at
most once and never the partition start. -/
theorem C3_warm_read_single_fetch_witness :
    List.count (some ((2 - 1) * 10))
        (getCustomerPageItems db25 "C1" 2 10 (handleGetOrders db25 "C1" 2 10 []).2).trace ≤ 1
    ∧ (none : Option Nat) ∉
        (getCustomerPageItems db25 "C1" 2 10 (handleGetOrders db25 "C1" 2 10 []).2).trace :=
  C3_warm_read_single_fetch db25 "C1" 2 10 [] 10 (by decide) (by decide) (by decide)

/-- Pages strictly before `numPages len s` start strictly inside the
partition. -/
theorem lt_numPages_mul (len s cp : Nat) (hs : 1 ≤ s) (hcp : 1 ≤ cp)
    (h : cp < numPages len s) : cp * s < len := by
  have hspos : 0 < s := hs
  unfold numPages at h
  have hq : cp < (len + s - 1) / s := by
    rcases Nat.le_total ((len + s - 1) / s) 1 with hh | hh
    · rw [Nat.max_eq_left hh] at h
      exact absurd h (by omega)
    · rw [Nat.max_eq_right hh] at h
      exact h
  have h3 : (cp + 1) * s ≤ len + s - 1 := (Nat.le_div_iff_mul_le hspos).mp hq
  have h4 : (cp + 1) * s = cp * s + s := Nat.succ_mul cp s
  rw [h4] at h3
  clear hq h
  generalize hA : cp * s = A at h3 ⊢
  omega

/-- The whole partition fits in `numPages len s` pages. -/
theorem numPages_mul_ge (len s : Nat) (hs : 1 ≤ s) : len ≤ numPages len s * s := by
  rcases Nat.eq_zero_or_pos len with h0 | h1
  · subst h0; exact Nat.zero_le _
  · have hspos : 0 < s := hs
    have hq1 : 1 ≤ (len + s - 1) / s := by
      rw [Nat.le_div_iff_mul_le hspos]
      omega
    have hN : numPages len s = (len + s - 1) / s := by
      unfold numPages
      exact Nat.max_eq_right hq1
    rw [hN, Nat.mul_comm]
    have hdm := Nat.div_add_mod (len + s - 1) s
    have hmod : (len + s - 1) % s < s := Nat.mod_lt _ hspos
    clear hq1 hN
    generalize hA : s * ((len + s - 1) / s) = A at hdm ⊢
    generalize hM : (len + s - 1) % s = M at hdm hmod
    omega

/-- A partition always holds at least one (possibly empty) page. -/
theorem numPages_pos (len s : Nat) : 1 ≤ numPages len s := by
  unfold numPages
  exact Nat.le_max_left _ _

/-- The position behind the canonical cursor of page `cp`. -/
theorem cursorAt_getD (s cp : Nat) : (cursorAt s cp).getD 0 = (cp - 1) * s := by
  unfold cursorAt
  by_cases h : cp = 1
  · subst h; simp
  · simp [h]

/-- Advancing a canonical page-start position by one page. -/
theorem cursor_step (s cp : Nat) (hcp : 1 ≤ cp) : (cp - 1) * s + s = cp * s := by
  cases cp with
  | zero => exact absurd hcp (by omega)
  | succ m => simp [Nat.succ_sub_one, Nat.succ_mul]

/-- Cold chain walk: started at page `cp` with the canonical cursor of
`cp`, on a request for a page beyond the partition's page count the loop
fetches exactly the remaining existing pages (one query per page, each
at a canonical page-start position), ends on the last page's items, and
carries out an absent cursor. -/
theorem getPageLoop_cold {α : Type} (db : String → List α) (customerId : String)
    (page s : Nat) (hs : 1 ≤ s) :
    ∀ (fuel cp : Nat) (c : Cache) (acc : List α),
      1 ≤ cp → cp ≤ numPages (db customerId).length s →
      numPages (db customerId).length s < page →
      fuel + cp = page + 1 →
      ((getPageLoop db customerId page s fuel cp (cursorAt s cp) c acc).items
          = ((db customerId).drop ((numPages (db customerId).length s - 1) * s)).take s
        ∧ (getPageLoop db customerId page s fuel cp (cursorAt s cp) c acc).lastEvaluatedKey
            = none
        ∧ (getPageLoop db customerId page s fuel cp (cursorAt s cp) c acc).trace.length
            = numPages (db customerId).length s - cp + 1
        ∧ ∀ x ∈ (getPageLoop db customerId page s fuel cp (cursorAt s cp) c acc).trace,
            x.getD 0 ≤ (numPages (db customerId).length s - 1) * s) := by
  intro fuel
  induction fuel with
  | zero =>
    intro cp c acc h1 h2 h3 h4
    have hcp : cp = page + 1 := by omega
    rw [hcp] at h2
    have hcontra := Nat.lt_of_le_of_lt h2 h3
    exact absurd hcontra (by omega)
  | succ n ih =>
    intro cp c acc h1 h2 h3 h4
    have hstart := cursorAt_getD s cp
    have hcpS := cursor_step s cp h1
    rcases Nat.eq_or_lt_of_le h2 with hEq | hLt
    · -- cp is the last existing page: the query's next cursor is absent
      have hge : (db customerId).length ≤ cp * s := by
        rw [hEq]
        exact numPages_mul_ge _ s hs
      have hcond : ¬ ((cp - 1) * s + s < (db customerId).length) := by
        rw [hcpS]
        exact Nat.not_lt.mpr hge
      have hq : queryCustomerOrders db customerId s (cursorAt s cp)
          = { Items := ((db customerId).drop ((cp - 1) * s)).take s,
              LastEvaluatedKey := none } := by
        simp [queryCustomerOrders, storeQuery, hstart, hcond]
      rw [← hEq]
      refine ⟨?_, ?_, ?_, ?_⟩
      · simp [getPageLoop, hq]
      · simp [getPageLoop, hq]
      · simp [getPageLoop, hq]
      · intro x hx
        simp [getPageLoop, hq] at hx
        rw [hx, cursorAt_getD]
    · -- pages remain after cp: the loop continues with page cp + 1
      have hlen : cp * s < (db customerId).length := lt_numPages_mul _ s cp hs h1 hLt
      have hcond : (cp - 1) * s + s < (db customerId).length := by
        rw [hcpS]
        exact hlen
      have hq : queryCustomerOrders db customerId s (cursorAt s cp)
          = { Items := ((db customerId).drop ((cp - 1) * s)).take s,
              LastEvaluatedKey := some (cp * s) } := by
        simp [queryCustomerOrders, storeQuery, hstart, hcond, hcpS, hlen]
      have hlt2 : cp < page := Nat.lt_trans hLt h3
      have hbe : (cp == page) = false := by
        simp [Nat.ne_of_lt hlt2]
      have hnext : (some (cp * s) : Option Nat) = cursorAt s (cp + 1) := by
        unfold cursorAt
        have hne : cp + 1 ≠ 1 := by omega
        simp [hne]
      have hIH := ih (cp + 1)
        (cacheSet c (cacheKey customerId cp s) (cursorAt s (cp + 1)))
        (((db customerId).drop ((cp - 1) * s)).take s)
        (by omega) hLt h3 (by omega)
      have harith : ∀ N : Nat, cp < N → N - (cp + 1) + 1 + 1 = N - cp + 1 := by
        intro N hN
        omega
      refine ⟨?_, ?_, ?_, ?_⟩
      · simp only [getPageLoop, hq, hbe, Option.isNone_some, Bool.false_or,
          Bool.false_eq_true, if_false]
        simp only [hnext]
        exact hIH.1
      · simp only [getPageLoop, hq, hbe, Option.isNone_some, Bool.false_or,
          Bool.false_eq_true, if_false]
        simp only [hnext]
        exact hIH.2.1
      · simp only [getPageLoop, hq, hbe, Option.isNone_some, Bool.false_or,
          Bool.false_eq_true, if_false]
        simp only [hnext, List.length_cons]
        rw [hIH.2.2.1]
        exact harith _ hLt
      · simp only [getPageLoop, hq, hbe, Option.isNone_some, Bool.false_or,
          Bool.false_eq_true, if_false]
        simp only [hnext]
        intro x hx
        rcases List.mem_cons.mp hx with hx | hx
        · rw [hx, cursorAt_getD]
          exact Nat.mul_le_mul_right s (Nat.sub_le_sub_right h2 1)
        · exact hIH.2.2.2 x hx

/-- Page 1 is fetched with the absent start-of-partition cursor. -/
theorem cursorAt_one (s : Nat) : cursorAt s 1 = none := by
  simp [cursorAt]

/-- The last existing page starts strictly inside a nonempty
partition. -/
theorem last_page_start_lt (len s : Nat) (hs : 1 ≤ s) (hlen : 0 < len) :
    (numPages len s - 1) * s < len := by
  have hN1 := numPages_pos len s
  rcases Nat.eq_or_lt_of_le hN1 with h1 | h1
  · rw [← h1]
    simpa using hlen
  · exact lt_numPages_mul len s (numPages len s - 1) hs
      (Nat.pred_le_pred h1) (Nat.sub_lt hN1 Nat.one_pos)

/-- Claim C10 — past-the-end page requests: on a cold (empty) cache,
requesting any page number strictly beyond the partition's page count
issues exactly one external query per existing page (never probing past
the last page's start position), returns the last page's items — which
are nonempty whenever the partition is — with an absent next cursor
(hasNext = false), and does not fail (the function is total and the
walk stops at the exhausted page rather than erroring). -/
theorem C10_past_end_page {α : Type} (db : String → List α) (customerId : String)
    (s page : Nat) (hs : 1 ≤ s)
    (hpage : numPages (db customerId).length s < page) :
    (getCustomerPageItems db customerId page s ([] : Cache)).items
        = ((db customerId).drop ((numPages (db customerId).length s - 1) * s)).take s
    ∧ (getCustomerPageItems db customerId page s ([] : Cache)).lastEvaluatedKey = none
    ∧ (getCustomerPageItems db customerId page s ([] : Cache)).trace.length
        = numPages (db customerId).length s
    ∧ (∀ x ∈ (getCustomerPageItems db customerId page s ([] : Cache)).trace,
        x.getD 0 ≤ (numPages (db customerId).length s - 1) * s)
    ∧ (db customerId ≠ [] →
        (getCustomerPageItems db customerId page s ([] : Cache)).items ≠ []) := by
  have hN1 := numPages_pos (db customerId).length s
  have hpage1 : 1 < page := Nat.lt_of_le_of_lt hN1 hpage
  have hcold := getPageLoop_cold db customerId page s hs page 1 [] []
    (le_refl 1) hN1 hpage rfl
  have hunfold : getCustomerPageItems db customerId page s ([] : Cache)
      = getPageLoop db customerId page s page 1 (cursorAt s 1) [] [] := by
    simp [getCustomerPageItems, cursorAt_one, cacheGet, hpage1]
  rw [hunfold]
  refine ⟨hcold.1, hcold.2.1, ?_, hcold.2.2.2, ?_⟩
  · rw [hcold.2.2.1]
    exact Nat.succ_pred_eq_of_pos hN1
  · intro hne
    have hlenpos : 0 < (db customerId).length := List.length_pos.mpr hne
    have hlast := last_page_start_lt (db customerId).length s hs hlenpos
    rw [hcold.1]
    apply List.length_pos.mp
    rw [List.length_take, List.length_drop]
    apply lt_min_iff.mpr
    constructor
    · exact hs
    · generalize hA : (numPages (db customerId).length s - 1) * s = A at hlast ⊢
      omega

/-- Witness for C10: the 25-item partition at page size 10 has 3 pages;
requesting page 5 cold issues 3 queries, each at a page-start position
at most 20, returns the last page's (nonempty) items with an absent
cursor. -/
theorem C10_past_end_page_witness :
    (getCustomerPageItems db25 "C1" 5 10 ([] : Cache)).items
        = ((db25 "C1").drop ((numPages (db25 "C1").length 10 - 1) * 10)).take 10
    ∧ (getCustomerPageItems db25 "C1" 5 10 ([] : Cache)).lastEvaluatedKey = none
    ∧ (getCustomerPageItems db25 "C1" 5 10 ([] : Cache)).trace.length
        = numPages (db25 "C1").length 10
    ∧ (∀ x ∈ (getCustomerPageItems db25 "C1" 5 10 ([] : Cache)).trace,
        x.getD 0 ≤ (numPages (db25 "C1").length 10 - 1) * 10)
    ∧ (db25 "C1" ≠ [] → (getCustomerPageItems db25 "C1" 5 10 ([] : Cache)).items ≠ []) :=
  C10_past_end_page db25 "C1" 10 5 (by decide) (by decide)
